import Mathlib

/-!
# Verification of the mirgecom boundary-condition / Euler-operator core

A shallow embedding, over the rationals, of the per-node (pointwise)
semantics of the boundary-treatment subsystem in `mirgecom/boundary.py`
and of the flux-assembly fragment of `mirgecom/euler.py`.

All field quantities in the source are DOF arrays operated on pointwise
(vectorized arithmetic plus `actx.np.where` selections); a single node is
therefore modelled by a rational value per scalar field and a
`Fin dim → ℚ` (resp. `Fin nspecies → ℚ`) vector per vector field.
Machinery that the source consumes from modules outside the verified core
(the gas model / equation of state, `make_fluid_state`, the physical
viscous flux, numerical flux combinators) is passed in as explicit
function parameters, or modelled from the specification where the
specification pins the behaviour down.
-/

/-- Dot product of two pointwise vectors, `np.dot(a, b)` in the source. -/
def dot {n : ℕ} (a b : Fin n → ℚ) : ℚ := ∑ i, a i * b i

/-- `mirgecom.fluid.ConservedVars` at one node: mass density, total energy
density, momentum density, species mass densities. -/
@[ext]
structure ConservedVars (dim nspecies : ℕ) where
  mass : ℚ
  energy : ℚ
  momentum : Fin dim → ℚ
  species_mass : Fin nspecies → ℚ
deriving DecidableEq

/-- `mirgecom.gas_model.FluidState` at one node: the conserved variables
together with the cached dependent variables the boundary code reads
(`pressure`, `temperature`, `speed_of_sound`, `velocity`,
`species_mass_fractions`, `is_mixture`). -/
@[ext]
structure FluidState (dim nspecies : ℕ) where
  cv : ConservedVars dim nspecies
  pressure : ℚ
  temperature : ℚ
  speed_of_sound : ℚ
  velocity : Fin dim → ℚ
  species_mass_fractions : Fin nspecies → ℚ
  is_mixture : Bool
deriving DecidableEq

/-- Gradient of the conserved variables at one node (`grad_cv`): one
spatial-gradient vector per scalar conserved component, one gradient
vector per momentum component and per species. The same shape serves as
the viscous flux tensor `F` (one flux vector per conserved component). -/
@[ext]
structure GradCV (dim nspecies : ℕ) where
  mass : Fin dim → ℚ
  energy : Fin dim → ℚ
  momentum : Fin dim → Fin dim → ℚ
  species_mass : Fin nspecies → Fin dim → ℚ
deriving DecidableEq

/-- Contraction `F@normal` of a flux tensor with the outward normal. -/
def flux_dot_normal {d ns : ℕ} (f : GradCV d ns) (normal : Fin d → ℚ) :
    ConservedVars d ns :=
  ⟨dot f.mass normal, dot f.energy normal,
   fun i => dot (f.momentum i) normal,
   fun i => dot (f.species_mass i) normal⟩

lemma dot_sub_left {n : ℕ} (a b c : Fin n → ℚ) :
    dot (fun i => a i - b i) c = dot a c - dot b c := by
  simp [dot, sub_mul, Finset.sum_sub_distrib]

lemma dot_smul_left {n : ℕ} (r : ℚ) (a b : Fin n → ℚ) :
    dot (fun i => r * a i) b = r * dot a b := by
  simp [dot, Finset.mul_sum, mul_assoc]

/-- `AdiabaticSlipBoundary.adiabatic_slip_state` (boundary.py lines
533-563): conserved variables of the exterior state
`make_conserved(mass=cv_minus.mass, energy=cv_minus.energy,
momentum=ext_mom, species_mass=cv_minus.species_mass)` with
`ext_mom = momentum - 2.0*np.dot(momentum, nhat)*nhat`. The source wraps
this cv in `make_fluid_state`; the claims concern the conserved
variables of the returned state, which are exactly this cv. -/
def AdiabaticSlipBoundary_adiabatic_slip_state {d ns : ℕ}
    (nhat : Fin d → ℚ) (state_minus : FluidState d ns) :
    ConservedVars d ns :=
  let cv_minus := state_minus.cv
  let ext_mom : Fin d → ℚ :=
    fun i => cv_minus.momentum i - 2 * dot cv_minus.momentum nhat * nhat i
  ⟨cv_minus.mass, cv_minus.energy, ext_mom, cv_minus.species_mass⟩

/-- `SymmetryBoundary.adiabatic_wall_state_for_advection` (boundary.py
lines 1183-1199): exterior cv with
`mom_plus = momentum_density - 2*(np.dot(momentum_density, nhat)*nhat)`,
mass/energy/species carried through. -/
def SymmetryBoundary_adiabatic_wall_state_for_advection {d ns : ℕ}
    (nhat : Fin d → ℚ) (state_minus : FluidState d ns) :
    ConservedVars d ns :=
  let mom_plus : Fin d → ℚ :=
    fun i => state_minus.cv.momentum i
      - 2 * (dot state_minus.cv.momentum nhat * nhat i)
  ⟨state_minus.cv.mass, state_minus.cv.energy, mom_plus,
   state_minus.cv.species_mass⟩

lemma reflect_dot {d : ℕ} (m nhat : Fin d → ℚ) (hn : dot nhat nhat = 1) :
    dot (fun i => m i - 2 * dot m nhat * nhat i) nhat = -(dot m nhat) := by
  rw [dot_sub_left m (fun i => 2 * dot m nhat * nhat i) nhat]
  rw [show (fun i => 2 * dot m nhat * nhat i)
        = (fun i => (2 * dot m nhat) * nhat i) from rfl,
      dot_smul_left, hn]
  ring

lemma reflect_tangential {d : ℕ} (m nhat : Fin d → ℚ)
    (hn : dot nhat nhat = 1) :
    (fun i => (m i - 2 * dot m nhat * nhat i)
        - dot (fun j => m j - 2 * dot m nhat * nhat j) nhat * nhat i)
      = fun i => m i - dot m nhat * nhat i := by
  funext i
  rw [reflect_dot m nhat hn]
  ring

/-- C3: for the slip/symmetry exterior-state constructions with a unit
normal, the exterior momentum satisfies `m⁺·n̂ = −(m⁻·n̂)` and preserves
the tangential part `m − (m·n̂)n̂` exactly, while mass, energy and species
mass densities equal the interior values; this holds for both
`AdiabaticSlipBoundary.adiabatic_slip_state` and
`SymmetryBoundary.adiabatic_wall_state_for_advection`. -/
theorem slip_wall_reflection_invariant {d ns : ℕ}
    (nhat : Fin d → ℚ) (s : FluidState d ns) (hn : dot nhat nhat = 1) :
    (dot (AdiabaticSlipBoundary_adiabatic_slip_state nhat s).momentum nhat
        = -(dot s.cv.momentum nhat)
      ∧ (fun i => (AdiabaticSlipBoundary_adiabatic_slip_state nhat s).momentum i
            - dot (AdiabaticSlipBoundary_adiabatic_slip_state nhat s).momentum
                nhat * nhat i)
          = (fun i => s.cv.momentum i - dot s.cv.momentum nhat * nhat i)
      ∧ (AdiabaticSlipBoundary_adiabatic_slip_state nhat s).mass = s.cv.mass
      ∧ (AdiabaticSlipBoundary_adiabatic_slip_state nhat s).energy = s.cv.energy
      ∧ (AdiabaticSlipBoundary_adiabatic_slip_state nhat s).species_mass
          = s.cv.species_mass)
    ∧ (dot (SymmetryBoundary_adiabatic_wall_state_for_advection nhat s).momentum
          nhat = -(dot s.cv.momentum nhat)
      ∧ (fun i =>
            (SymmetryBoundary_adiabatic_wall_state_for_advection nhat s).momentum i
            - dot (SymmetryBoundary_adiabatic_wall_state_for_advection
                nhat s).momentum nhat * nhat i)
          = (fun i => s.cv.momentum i - dot s.cv.momentum nhat * nhat i)
      ∧ (SymmetryBoundary_adiabatic_wall_state_for_advection nhat s).mass
          = s.cv.mass
      ∧ (SymmetryBoundary_adiabatic_wall_state_for_advection nhat s).energy
          = s.cv.energy
      ∧ (SymmetryBoundary_adiabatic_wall_state_for_advection nhat s).species_mass
          = s.cv.species_mass) := by
  have hsym : SymmetryBoundary_adiabatic_wall_state_for_advection nhat s
      = AdiabaticSlipBoundary_adiabatic_slip_state nhat s := by
    unfold SymmetryBoundary_adiabatic_wall_state_for_advection
      AdiabaticSlipBoundary_adiabatic_slip_state
    ext i <;> simp [mul_assoc]
  constructor
  · refine ⟨?_, ?_, rfl, rfl, rfl⟩
    · exact reflect_dot s.cv.momentum nhat hn
    · exact reflect_tangential s.cv.momentum nhat hn
  · rw [hsym]
    refine ⟨?_, ?_, rfl, rfl, rfl⟩
    · exact reflect_dot s.cv.momentum nhat hn
    · exact reflect_tangential s.cv.momentum nhat hn

/-- Witness for C3 at a concrete input: `d = 2`, momentum `(3, 4)`,
unit normal `(1, 0)`. -/
theorem slip_wall_reflection_invariant_witness :
    let nhat : Fin 2 → ℚ := fun i => if i = 0 then 1 else 0
    let s : FluidState 2 0 :=
      ⟨⟨1, 5, fun i => if i = 0 then 3 else 4, Fin.elim0⟩,
        1, 1, 1, fun i => if i = 0 then 3 else 4, Fin.elim0, false⟩
    dot nhat nhat = 1
    ∧ dot (AdiabaticSlipBoundary_adiabatic_slip_state nhat s).momentum nhat
        = -(dot s.cv.momentum nhat) := by
  intro nhat s
  have hn : dot nhat nhat = 1 := by
    show dot (fun i : Fin 2 => if i = 0 then 1 else 0)
        (fun i : Fin 2 => if i = 0 then 1 else 0) = 1
    norm_num [dot, Fin.sum_univ_two]
  exact ⟨hn, (slip_wall_reflection_invariant nhat s hn).1.1⟩

lemma reflect_involution {d : ℕ} (m nhat : Fin d → ℚ)
    (hn : dot nhat nhat = 1) :
    (fun i => (fun j => m j - 2 * dot m nhat * nhat j) i
        - 2 * dot (fun j => m j - 2 * dot m nhat * nhat j) nhat * nhat i)
      = m := by
  funext i
  show (m i - 2 * dot m nhat * nhat i)
      - 2 * dot (fun j => m j - 2 * dot m nhat * nhat j) nhat * nhat i = m i
  rw [reflect_dot m nhat hn]
  ring

/-- C9: the slip-wall exterior-momentum map `m ↦ m − 2(m·n̂)n̂` is an
involution for every unit normal, and applying
`AdiabaticSlipBoundary.adiabatic_slip_state` to a state whose conserved
variables are its own output reproduces the original conserved state. -/
theorem slip_state_involution {d ns : ℕ} (nhat m : Fin d → ℚ)
    (s s' : FluidState d ns) (hn : dot nhat nhat = 1)
    (hs' : s'.cv = AdiabaticSlipBoundary_adiabatic_slip_state nhat s) :
    (fun i => (fun j => m j - 2 * dot m nhat * nhat j) i
        - 2 * dot (fun j => m j - 2 * dot m nhat * nhat j) nhat * nhat i) = m
    ∧ AdiabaticSlipBoundary_adiabatic_slip_state nhat s' = s.cv := by
  refine ⟨reflect_involution m nhat hn, ?_⟩
  have h1 : AdiabaticSlipBoundary_adiabatic_slip_state nhat s'
      = ⟨s'.cv.mass, s'.cv.energy,
          fun i => s'.cv.momentum i - 2 * dot s'.cv.momentum nhat * nhat i,
          s'.cv.species_mass⟩ := rfl
  rw [h1, hs']
  have h2 : AdiabaticSlipBoundary_adiabatic_slip_state nhat s
      = ⟨s.cv.mass, s.cv.energy,
          fun i => s.cv.momentum i - 2 * dot s.cv.momentum nhat * nhat i,
          s.cv.species_mass⟩ := rfl
  rw [h2]
  ext
  · rfl
  · rfl
  · exact congrFun (reflect_involution s.cv.momentum nhat hn) _
  · rfl

/-- Witness for C9 at a concrete input: `d = 1`, `n̂ = (1)`, `m = (5)`,
and a state `s'` whose cv is the slip image of `s`. -/
theorem slip_state_involution_witness :
    let nhat : Fin 1 → ℚ := fun _ => 1
    let m : Fin 1 → ℚ := fun _ => 5
    let s : FluidState 1 0 :=
      ⟨⟨1, 5, fun _ => 3, Fin.elim0⟩, 1, 1, 1, fun _ => 3, Fin.elim0, false⟩
    let s' : FluidState 1 0 :=
      ⟨AdiabaticSlipBoundary_adiabatic_slip_state nhat s,
        1, 1, 1, fun _ => -3, Fin.elim0, false⟩
    AdiabaticSlipBoundary_adiabatic_slip_state nhat s' = s.cv := by
  intro nhat m s s'
  have hn : dot nhat nhat = 1 := by
    norm_num [dot, Fin.sum_univ_one]
  exact (slip_state_involution nhat m s s' hn rfl).2

/-- The equation-of-state capabilities consumed by the boundary code
(`gas_model.eos` in the source; the gas-model module is outside the
verified core, so these are explicit parameters). -/
structure EOS (d ns : ℕ) where
  gamma : ConservedVars d ns → ℚ → ℚ
  kinetic_energy : ConservedVars d ns → ℚ
  get_internal_energy : ℚ → (Fin ns → ℚ) → ℚ
  get_density : ℚ → ℚ → (Fin ns → ℚ) → ℚ

/-- Modelled from the spec: the `GasModel.eos` capabilities of spec §6
(`gamma`, `kinetic_energy`, `internal_energy`, `density`; the gas-model
module is not part of the verified sources) instantiated as a
calorically perfect single gas with constant ratio of specific heats
`gamma_gas` and gas constant `r`: `kinetic_energy(cv) = |m|²/(2ρ)`,
`internal_energy = r·T/(γ−1)`, `density = P/(r·T)`. Used to build
concrete witness and counterexample inputs. -/
def idealGasEOS (d ns : ℕ) (gamma_gas r : ℚ) : EOS d ns :=
  ⟨fun _ _ => gamma_gas,
   fun cv => dot cv.momentum cv.momentum / (2 * cv.mass),
   fun t _ => r * t / (gamma_gas - 1),
   fun p t _ => p / (r * t)⟩

/-- `OutflowBoundary.outflow_state` (boundary.py lines 793-819),
conserved variables of the returned state. The source computes
`boundary_vel = np.dot(velocity, nhat)*nhat` and
`boundary_speed = sqrt(boundary_vel·boundary_vel)
= sqrt((v·n̂)²·(n̂·n̂))`; for the unit normal supplied by
`discr.normal` this equals `|v·n̂|`, which is the form used here (the
rationals have no square root). The branch selection
`actx.np.where(actx.np.greater(boundary_speed, speed_of_sound), ...)`
is the strict comparison `boundary_speed > speed_of_sound`. -/
def OutflowBoundary_outflow_state {d ns : ℕ} (eos : EOS d ns)
    (boundary_pressure_config : ℚ) (nhat : Fin d → ℚ)
    (state_minus : FluidState d ns) : ConservedVars d ns :=
  let boundary_speed := |dot state_minus.velocity nhat|
  let speed_of_sound := state_minus.speed_of_sound
  let kinetic_energy := eos.kinetic_energy state_minus.cv
  let gamma := eos.gamma state_minus.cv state_minus.temperature
  let external_pressure := 2 * boundary_pressure_config - state_minus.pressure
  let boundary_pressure :=
    if speed_of_sound < boundary_speed then state_minus.pressure
    else external_pressure
  let internal_energy := boundary_pressure / (gamma - 1)
  let total_energy := internal_energy + kinetic_energy
  ⟨state_minus.cv.mass, total_energy, state_minus.cv.momentum,
   state_minus.cv.species_mass⟩

/-- Counterexample to C1 as stated: at a node where the boundary-normal
speed exactly equals the local speed of sound (an ideal-gas-consistent
state: `γ = 2`, `ρ = 1`, `v = 2`, `P = 2`, `c = √(γP/ρ) = 2`, `E = 4`)
with configured boundary pressure `1`, the boundary-normal velocity is
`≥` the sound speed, yet the exterior energy is `2 ≠ 4`: the code takes
the supersonic branch only for a strictly greater normal speed. -/
theorem outflow_sonic_counterexample :
    let eos := idealGasEOS 1 0 2 1
    let nhat : Fin 1 → ℚ := fun _ => 1
    let s : FluidState 1 0 :=
      ⟨⟨1, 4, fun _ => 2, Fin.elim0⟩, 2, 2, 2, fun _ => 2, Fin.elim0, false⟩
    |dot s.velocity nhat| ≥ s.speed_of_sound
    ∧ s.pressure = (eos.gamma s.cv s.temperature - 1)
        * (s.cv.energy - eos.kinetic_energy s.cv)
    ∧ (OutflowBoundary_outflow_state eos 1 nhat s).energy ≠ s.cv.energy := by
  intro eos nhat s
  have hdot : dot s.velocity nhat = 2 := by
    norm_num [dot, Fin.sum_univ_one, s]
  have hmom : dot s.cv.momentum s.cv.momentum = 4 := by
    norm_num [dot, Fin.sum_univ_one, s]
  refine ⟨by rw [hdot]; norm_num [s], ?_, ?_⟩
  · show (2 : ℚ) = (2 - 1) * (4 - dot s.cv.momentum s.cv.momentum / (2 * 1))
    rw [hmom]; norm_num
  · show (OutflowBoundary_outflow_state eos 1 nhat s).energy ≠ 4
    unfold OutflowBoundary_outflow_state
    rw [hdot]
    show ((if (2 : ℚ) < |(2 : ℚ)| then (2 : ℚ) else 2 * 1 - 2) / (2 - 1)
        + dot s.cv.momentum s.cv.momentum / (2 * 1)) ≠ 4
    rw [hmom]; norm_num

/-- C1 (amended): in `OutflowBoundary.outflow_state`, at every node of an
ideal-gas-consistent interior state, if the boundary-normal speed is
STRICTLY greater than the local speed of sound the exterior total energy
equals the interior total energy exactly; otherwise (normal speed ≤ sound
speed) the exterior energy equals `(2·P_boundary − P⁻)/(γ−1)` plus the
interior kinetic energy; in both branches mass, momentum and species mass
densities are copied unchanged from the interior state. -/
theorem outflow_state_branch_selection {d ns : ℕ} (eos : EOS d ns)
    (pb : ℚ) (nhat : Fin d → ℚ) (s : FluidState d ns)
    (hideal : s.pressure = (eos.gamma s.cv s.temperature - 1)
        * (s.cv.energy - eos.kinetic_energy s.cv))
    (hgamma : eos.gamma s.cv s.temperature ≠ 1) :
    (OutflowBoundary_outflow_state eos pb nhat s).energy
      = (if s.speed_of_sound < |dot s.velocity nhat|
          then s.cv.energy
          else (2 * pb - s.pressure) / (eos.gamma s.cv s.temperature - 1)
            + eos.kinetic_energy s.cv)
    ∧ (OutflowBoundary_outflow_state eos pb nhat s).mass = s.cv.mass
    ∧ (OutflowBoundary_outflow_state eos pb nhat s).momentum = s.cv.momentum
    ∧ (OutflowBoundary_outflow_state eos pb nhat s).species_mass
        = s.cv.species_mass := by
  refine ⟨?_, rfl, rfl, rfl⟩
  unfold OutflowBoundary_outflow_state
  by_cases hc : s.speed_of_sound < |dot s.velocity nhat|
  · simp only [hc, if_true]
    rw [hideal]
    have hne : eos.gamma s.cv s.temperature - 1 ≠ 0 := sub_ne_zero.mpr hgamma
    field_simp
  · simp only [hc, if_false]

/-- Witness for C1 (amended) at a concrete supersonic input: `γ = 2`,
`ρ = 1`, `v = 3`, `P = 1/2`, `c = 1`, `E = 5`; the exterior energy equals
the interior energy `5`. -/
theorem outflow_state_branch_selection_witness :
    let eos := idealGasEOS 1 0 2 1
    let nhat : Fin 1 → ℚ := fun _ => 1
    let s : FluidState 1 0 :=
      ⟨⟨1, 5, fun _ => 3, Fin.elim0⟩, 1/2, 1/2, 1, fun _ => 3,
        Fin.elim0, false⟩
    s.pressure = (eos.gamma s.cv s.temperature - 1)
        * (s.cv.energy - eos.kinetic_energy s.cv)
    ∧ (OutflowBoundary_outflow_state eos 1 nhat s).energy = s.cv.energy := by
  intro eos nhat s
  have hmom : dot s.cv.momentum s.cv.momentum = 9 := by
    norm_num [dot, Fin.sum_univ_one, s]
  have hideal : s.pressure = (eos.gamma s.cv s.temperature - 1)
      * (s.cv.energy - eos.kinetic_energy s.cv) := by
    show (1/2 : ℚ) = (2 - 1) * (5 - dot s.cv.momentum s.cv.momentum / (2 * 1))
    rw [hmom]; norm_num
  have hgamma : eos.gamma s.cv s.temperature ≠ 1 := by
    show (2 : ℚ) ≠ 1; norm_num
  have h := outflow_state_branch_selection eos 1 nhat s hideal hgamma
  refine ⟨hideal, ?_⟩
  rw [h.1]
  have hdot : dot s.velocity nhat = 3 := by
    norm_num [dot, Fin.sum_univ_one, s]
  rw [hdot]
  norm_num [s]

/-- Modelled from the spec: the centered (average) gradient
numerical-flux combinator (`mirgecom.flux.num_flux_central`; the flux
module is not part of the verified sources; spec §4.2: "default
gradient-numerical-flux = a centered (average) combinator"). -/
def num_flux_central (a b : ℚ) : ℚ := (a + b) / 2

/-- `IsothermalNoSlipBoundary.temperature_bc` (boundary.py lines
668-674): `2*self._wall_temp - state_minus.temperature`. -/
def IsothermalNoSlipBoundary_temperature_bc {d ns : ℕ}
    (wall_temperature : ℚ) (state_minus : FluidState d ns) : ℚ :=
  2 * wall_temperature - state_minus.temperature

/-- `IsothermalWallBoundary.temperature_bc` (boundary.py lines 994-997):
the active line is `0.*state_minus.temperature + self._wall_temp`
(the `2*self._wall_temp - state_minus.temperature` alternative is
commented out in the source). -/
def IsothermalWallBoundary_temperature_bc {d ns : ℕ}
    (wall_temperature : ℚ) (state_minus : FluidState d ns) : ℚ :=
  0 * state_minus.temperature + wall_temperature

/-- Counterexample to C2 as stated: for `IsothermalWallBoundary` with
`T_wall = 300` and interior temperature `100`, the temperature-gradient
boundary value is `300`, not `2·300 − 100 = 500`, and the centered flux
of the pair gives `200 ≠ 300`. -/
theorem isothermal_wall_temperature_bc_counterexample :
    let s : FluidState 1 0 :=
      ⟨⟨1, 1, fun _ => 0, Fin.elim0⟩, 1, 100, 1, fun _ => 0,
        Fin.elim0, false⟩
    IsothermalWallBoundary_temperature_bc 300 s ≠ 2 * 300 - s.temperature
    ∧ num_flux_central s.temperature
        (IsothermalWallBoundary_temperature_bc 300 s) ≠ 300 := by
  intro s
  constructor
  · show (0 * (100 : ℚ) + 300) ≠ 2 * 300 - 100
    norm_num
  · show ((100 : ℚ) + (0 * 100 + 300)) / 2 ≠ 300
    norm_num

/-- C2 (amended): `IsothermalNoSlipBoundary.temperature_bc` satisfies
`T⁺ = 2·T_wall − T⁻` for every interior temperature, so the centered
(average) gradient flux applied to the `(T⁻, T⁺)` pair yields face
temperature exactly `T_wall`; `IsothermalWallBoundary.temperature_bc`
instead returns `T_wall` itself for every interior temperature. -/
theorem isothermal_temperature_bc_spec {d ns : ℕ}
    (wall_temperature : ℚ) (s : FluidState d ns) :
    IsothermalNoSlipBoundary_temperature_bc wall_temperature s
      = 2 * wall_temperature - s.temperature
    ∧ num_flux_central s.temperature
        (IsothermalNoSlipBoundary_temperature_bc wall_temperature s)
      = wall_temperature
    ∧ IsothermalWallBoundary_temperature_bc wall_temperature s
      = wall_temperature := by
  refine ⟨rfl, ?_, ?_⟩
  · unfold num_flux_central IsothermalNoSlipBoundary_temperature_bc
    ring
  · unfold IsothermalWallBoundary_temperature_bc
    ring

/-- `IsothermalWallBoundary.grad_cv_bc` (boundary.py lines 999-1018).
`species_mass_fraction_gradient` lives in `mirgecom.fluid`, outside the
verified core, and is passed in as a parameter. The `for` loop over
species overwrites every row of `grad_species_mass_plus`, leaving
`mass*grad_y_plus[i] + Y[i]*grad_cv_minus.mass` in each. -/
def IsothermalWallBoundary_grad_cv_bc {d ns : ℕ}
    (species_mass_fraction_gradient :
      ConservedVars d ns → GradCV d ns → Fin ns → Fin d → ℚ)
    (state_minus : FluidState d ns) (grad_cv_minus : GradCV d ns)
    (normal : Fin d → ℚ) : GradCV d ns :=
  let grad_species_mass_plus : Fin ns → Fin d → ℚ :=
    if 0 < ns then
      let grad_y_minus :=
        species_mass_fraction_gradient state_minus.cv grad_cv_minus
      let grad_y_plus : Fin ns → Fin d → ℚ :=
        fun i j => grad_y_minus i j - dot (grad_y_minus i) normal * normal j
      fun i j => state_minus.cv.mass * grad_y_plus i j
        + state_minus.species_mass_fractions i * grad_cv_minus.mass j
    else fun i j => 1 * grad_cv_minus.species_mass i j
  ⟨grad_cv_minus.mass, grad_cv_minus.energy, grad_cv_minus.momentum,
   grad_species_mass_plus⟩

/-- `AdiabaticNoslipWallBoundary.grad_cv_bc` (boundary.py lines
1103-1122); textually the same computation as
`IsothermalWallBoundary.grad_cv_bc`. -/
def AdiabaticNoslipWallBoundary_grad_cv_bc {d ns : ℕ}
    (species_mass_fraction_gradient :
      ConservedVars d ns → GradCV d ns → Fin ns → Fin d → ℚ)
    (state_minus : FluidState d ns) (grad_cv_minus : GradCV d ns)
    (normal : Fin d → ℚ) : GradCV d ns :=
  let grad_species_mass_plus : Fin ns → Fin d → ℚ :=
    if 0 < ns then
      let grad_y_minus :=
        species_mass_fraction_gradient state_minus.cv grad_cv_minus
      let grad_y_plus : Fin ns → Fin d → ℚ :=
        fun i j => grad_y_minus i j - dot (grad_y_minus i) normal * normal j
      fun i j => state_minus.cv.mass * grad_y_plus i j
        + state_minus.species_mass_fractions i * grad_cv_minus.mass j
    else fun i j => 1 * grad_cv_minus.species_mass i j
  ⟨grad_cv_minus.mass, grad_cv_minus.energy, grad_cv_minus.momentum,
   grad_species_mass_plus⟩

/-- `SymmetryBoundary.grad_cv_bc` (boundary.py lines 1233-1252);
textually the same computation as `IsothermalWallBoundary.grad_cv_bc`. -/
def SymmetryBoundary_grad_cv_bc {d ns : ℕ}
    (species_mass_fraction_gradient :
      ConservedVars d ns → GradCV d ns → Fin ns → Fin d → ℚ)
    (state_minus : FluidState d ns) (grad_cv_minus : GradCV d ns)
    (normal : Fin d → ℚ) : GradCV d ns :=
  let grad_species_mass_plus : Fin ns → Fin d → ℚ :=
    if 0 < ns then
      let grad_y_minus :=
        species_mass_fraction_gradient state_minus.cv grad_cv_minus
      let grad_y_plus : Fin ns → Fin d → ℚ :=
        fun i j => grad_y_minus i j - dot (grad_y_minus i) normal * normal j
      fun i j => state_minus.cv.mass * grad_y_plus i j
        + state_minus.species_mass_fractions i * grad_cv_minus.mass j
    else fun i j => 1 * grad_cv_minus.species_mass i j
  ⟨grad_cv_minus.mass, grad_cv_minus.energy, grad_cv_minus.momentum,
   grad_species_mass_plus⟩

lemma grad_cv_bc_zero_species {d : ℕ}
    (smfg : ConservedVars d 0 → GradCV d 0 → Fin 0 → Fin d → ℚ)
    (s : FluidState d 0) (g : GradCV d 0) (normal : Fin d → ℚ) :
    IsothermalWallBoundary_grad_cv_bc smfg s g normal = g := by
  refine GradCV.ext rfl rfl rfl ?_
  funext i
  exact i.elim0

/-- C10: for each wall boundary's `grad_cv_bc` (`IsothermalWallBoundary`,
`AdiabaticNoslipWallBoundary`, `SymmetryBoundary`), the returned boundary
gradient keeps the mass, energy, and momentum gradient components exactly
equal to those of `grad_cv_minus`; only the species-mass gradient
component is modified, and when the state has zero species the result
equals `grad_cv_minus` in every component. -/
theorem wall_grad_cv_bc_frame {d ns : ℕ}
    (smfg : ConservedVars d ns → GradCV d ns → Fin ns → Fin d → ℚ)
    (s : FluidState d ns) (g : GradCV d ns) (normal : Fin d → ℚ)
    (smfg0 : ConservedVars d 0 → GradCV d 0 → Fin 0 → Fin d → ℚ)
    (s0 : FluidState d 0) (g0 : GradCV d 0) (normal0 : Fin d → ℚ) :
    ((IsothermalWallBoundary_grad_cv_bc smfg s g normal).mass = g.mass
      ∧ (IsothermalWallBoundary_grad_cv_bc smfg s g normal).energy = g.energy
      ∧ (IsothermalWallBoundary_grad_cv_bc smfg s g normal).momentum
          = g.momentum)
    ∧ ((AdiabaticNoslipWallBoundary_grad_cv_bc smfg s g normal).mass = g.mass
      ∧ (AdiabaticNoslipWallBoundary_grad_cv_bc smfg s g normal).energy
          = g.energy
      ∧ (AdiabaticNoslipWallBoundary_grad_cv_bc smfg s g normal).momentum
          = g.momentum)
    ∧ ((SymmetryBoundary_grad_cv_bc smfg s g normal).mass = g.mass
      ∧ (SymmetryBoundary_grad_cv_bc smfg s g normal).energy = g.energy
      ∧ (SymmetryBoundary_grad_cv_bc smfg s g normal).momentum = g.momentum)
    ∧ (IsothermalWallBoundary_grad_cv_bc smfg0 s0 g0 normal0 = g0
      ∧ AdiabaticNoslipWallBoundary_grad_cv_bc smfg0 s0 g0 normal0 = g0
      ∧ SymmetryBoundary_grad_cv_bc smfg0 s0 g0 normal0 = g0) := by
  refine ⟨⟨rfl, rfl, rfl⟩, ⟨rfl, rfl, rfl⟩, ⟨rfl, rfl, rfl⟩, ?_, ?_, ?_⟩
  · exact grad_cv_bc_zero_species smfg0 s0 g0 normal0
  · refine GradCV.ext rfl rfl rfl ?_
    funext i
    exact i.elim0
  · refine GradCV.ext rfl rfl rfl ?_
    funext i
    exact i.elim0

/-- `FarfieldBoundary.farfield_state` (boundary.py lines 714-742),
conserved variables of the returned state; `gas_model.eos` enters
through the `EOS` parameter. -/
def FarfieldBoundary_farfield_state {d ns : ℕ} (eos : EOS d ns)
    (free_stream_temperature free_stream_pressure : ℚ)
    (free_stream_velocity : Fin d → ℚ)
    (free_stream_mass_fractions : Fin ns → ℚ)
    (state_minus : FluidState d ns) : ConservedVars d ns :=
  let fs_mass_fractions : Fin ns → ℚ :=
    fun i => 0 * state_minus.species_mass_fractions i
      + free_stream_mass_fractions i
  let fs_temperature := 0 * state_minus.temperature + free_stream_temperature
  let fs_pressure := 0 * state_minus.pressure + free_stream_pressure
  let fs_density := eos.get_density fs_pressure fs_temperature
    fs_mass_fractions
  let fs_velocity : Fin d → ℚ :=
    fun i => 0 * state_minus.velocity i + free_stream_velocity i
  let fs_internal_energy :=
    eos.get_internal_energy fs_temperature fs_mass_fractions
  let fs_total_energy := fs_density
    * (fs_internal_energy + (1/2) * dot fs_velocity fs_velocity)
  let fs_spec_mass : Fin ns → ℚ := fun i => fs_density * fs_mass_fractions i
  ⟨fs_density, fs_total_energy, fun i => fs_density * fs_velocity i,
   fs_spec_mass⟩

/-- C7: `FarfieldBoundary.farfield_state` does not depend on the interior
state values: for any two interior states (of the same dimension and
species count), the returned exterior conserved variables agree,
determined solely by the configured free-stream quantities. -/
theorem farfield_state_noninterference {d ns : ℕ} (eos : EOS d ns)
    (t p : ℚ) (v : Fin d → ℚ) (y : Fin ns → ℚ)
    (s1 s2 : FluidState d ns) :
    FarfieldBoundary_farfield_state eos t p v y s1
      = FarfieldBoundary_farfield_state eos t p v y s2 := by
  unfold FarfieldBoundary_farfield_state
  simp only [zero_mul, zero_add]

/-- Signature of an inviscid numerical (Riemann-type) flux combinator
`(state_minus, state_plus, normal) ↦ flux` (external collaborator). -/
abbrev InviscidNumFluxFn (d ns : ℕ) :=
  FluidState d ns → FluidState d ns → (Fin d → ℚ) → ConservedVars d ns

/-- Signature of a viscous numerical flux combinator
`(state pair, grad_cv pair, grad_t pair) ↦ flux` (external
collaborator, e.g. `viscous_facial_flux_central`). -/
abbrev ViscousNumFluxFn (d ns : ℕ) :=
  (FluidState d ns × FluidState d ns) → (GradCV d ns × GradCV d ns) →
    ((Fin d → ℚ) × (Fin d → ℚ)) → ConservedVars d ns

/-- Signature of the external `make_fluid_state(cv, gas_model,
temperature_seed)` factory with the gas model fixed. -/
abbrev MakeFluidStateFn (d ns : ℕ) :=
  ConservedVars d ns → Option ℚ → FluidState d ns

/-- Signature of the external physical viscous flux
`mirgecom.viscous.viscous_flux(state, grad_cv, grad_t)` returning the
flux tensor. -/
abbrev ViscousFluxFn (d ns : ℕ) :=
  FluidState d ns → GradCV d ns → (Fin d → ℚ) → GradCV d ns

/-- `IsothermalWallBoundary.isothermal_wall_state` (boundary.py lines
960-977), conserved variables of the returned state: zero velocities and
energy from the prescribed wall temperature
(`mom_plus = state_minus.mass_density*0.*state_minus.velocity`,
`total_energy_plus = mass*internal_energy(T_wall, Y⁻)`). -/
def IsothermalWallBoundary_isothermal_wall_state {d ns : ℕ}
    (eos : EOS d ns) (wall_temperature : ℚ)
    (state_minus : FluidState d ns) : ConservedVars d ns :=
  let temperature_wall := wall_temperature + 0 * state_minus.cv.mass
  let mom_plus : Fin d → ℚ :=
    fun i => state_minus.cv.mass * 0 * state_minus.velocity i
  let mass_frac_plus := state_minus.species_mass_fractions
  let internal_energy_plus :=
    eos.get_internal_energy temperature_wall mass_frac_plus
  let total_energy_plus := state_minus.cv.mass * internal_energy_plus
  ⟨state_minus.cv.mass, total_energy_plus, mom_plus,
   state_minus.cv.species_mass⟩

/-- The exterior cv built inside
`IsothermalWallBoundary.inviscid_wall_flux` (boundary.py lines 979-992):
`make_conserved(..., momentum=-state_minus.momentum_density, ...)`. -/
def IsothermalWallBoundary_inviscid_wall_cv {d ns : ℕ}
    (state_minus : FluidState d ns) : ConservedVars d ns :=
  ⟨state_minus.cv.mass, state_minus.cv.energy,
   fun i => -state_minus.cv.momentum i, state_minus.cv.species_mass⟩

/-- `IsothermalWallBoundary.inviscid_wall_flux`: Riemann flux of the
(interior, mirrored-momentum wall state) pair. -/
def IsothermalWallBoundary_inviscid_wall_flux {d ns : ℕ}
    (mfs : MakeFluidStateFn d ns)
    (numerical_flux_func : InviscidNumFluxFn d ns)
    (state_minus : FluidState d ns) (normal : Fin d → ℚ) :
    ConservedVars d ns :=
  let wall_state := mfs (IsothermalWallBoundary_inviscid_wall_cv state_minus)
    (some state_minus.temperature)
  numerical_flux_func state_minus wall_state normal

/-- `IsothermalWallBoundary.viscous_wall_flux` (boundary.py lines
1020-1045): evaluates the PHYSICAL viscous flux
`viscous_flux(state=state_plus, grad_cv=grad_cv_plus, grad_t=grad_t_plus)`
at the zero-velocity wall state and dots it with the outward normal; the
`numerical_flux_func` argument is accepted but never used. The boundary
temperature-gradient function of this class resolves to the default
`_identical_grad_temperature`, so `grad_t_plus = grad_t_minus`. -/
def IsothermalWallBoundary_viscous_wall_flux {d ns : ℕ}
    (mfs : MakeFluidStateFn d ns) (eos : EOS d ns)
    (viscous_flux : ViscousFluxFn d ns)
    (numerical_flux_func : ViscousNumFluxFn d ns)
    (wall_temperature : ℚ)
    (species_mass_fraction_gradient :
      ConservedVars d ns → GradCV d ns → Fin ns → Fin d → ℚ)
    (state_minus : FluidState d ns) (grad_cv_minus : GradCV d ns)
    (grad_t_minus : Fin d → ℚ) (normal : Fin d → ℚ) :
    ConservedVars d ns :=
  let state_plus := mfs
    (IsothermalWallBoundary_isothermal_wall_state eos wall_temperature
      state_minus)
    (some state_minus.temperature)
  let grad_cv_plus := IsothermalWallBoundary_grad_cv_bc
    species_mass_fraction_gradient state_minus grad_cv_minus normal
  let grad_t_plus := grad_t_minus
  flux_dot_normal (viscous_flux state_plus grad_cv_plus grad_t_plus) normal

/-- `AdiabaticNoslipWallBoundary.adiabatic_wall_state_for_advection`
(boundary.py lines 1065-1075): mirrored momentum
`mom_plus = -state_minus.momentum_density`. -/
def AdiabaticNoslipWallBoundary_adiabatic_wall_state_for_advection
    {d ns : ℕ} (state_minus : FluidState d ns) : ConservedVars d ns :=
  let mom_plus : Fin d → ℚ := fun i => -state_minus.cv.momentum i
  ⟨state_minus.cv.mass, state_minus.cv.energy, mom_plus,
   state_minus.cv.species_mass⟩

/-- `AdiabaticNoslipWallBoundary.adiabatic_wall_state_for_diffusion`
(boundary.py lines 1077-1087): zero momentum
`mom_plus = 0*state_minus.momentum_density`. -/
def AdiabaticNoslipWallBoundary_adiabatic_wall_state_for_diffusion
    {d ns : ℕ} (state_minus : FluidState d ns) : ConservedVars d ns :=
  let mom_plus : Fin d → ℚ := fun i => 0 * state_minus.cv.momentum i
  ⟨state_minus.cv.mass, state_minus.cv.energy, mom_plus,
   state_minus.cv.species_mass⟩

/-- `AdiabaticNoslipWallBoundary.inviscid_wall_flux` (boundary.py lines
1089-1097): Riemann flux of the (interior, advection wall state) pair. -/
def AdiabaticNoslipWallBoundary_inviscid_wall_flux {d ns : ℕ}
    (mfs : MakeFluidStateFn d ns)
    (numerical_flux_func : InviscidNumFluxFn d ns)
    (state_minus : FluidState d ns) (normal : Fin d → ℚ) :
    ConservedVars d ns :=
  let wall_state := mfs
    (AdiabaticNoslipWallBoundary_adiabatic_wall_state_for_advection
      state_minus)
    (some state_minus.temperature)
  numerical_flux_func state_minus wall_state normal

/-- `AdiabaticNoslipWallBoundary.grad_temperature_bc` (boundary.py lines
1124-1126): `grad_t_minus - np.dot(grad_t_minus, normal)*normal`. -/
def AdiabaticNoslipWallBoundary_grad_temperature_bc {d : ℕ}
    (grad_t_minus normal : Fin d → ℚ) : Fin d → ℚ :=
  fun i => grad_t_minus i - dot grad_t_minus normal * normal i

/-- `AdiabaticNoslipWallBoundary.viscous_wall_flux` (boundary.py lines
1128-1150): physical viscous flux at the zero-velocity diffusion state,
dotted with the outward normal; `numerical_flux_func` accepted but never
used. -/
def AdiabaticNoslipWallBoundary_viscous_wall_flux {d ns : ℕ}
    (mfs : MakeFluidStateFn d ns) (viscous_flux : ViscousFluxFn d ns)
    (numerical_flux_func : ViscousNumFluxFn d ns)
    (species_mass_fraction_gradient :
      ConservedVars d ns → GradCV d ns → Fin ns → Fin d → ℚ)
    (state_minus : FluidState d ns) (grad_cv_minus : GradCV d ns)
    (grad_t_minus : Fin d → ℚ) (normal : Fin d → ℚ) :
    ConservedVars d ns :=
  let state_plus := mfs
    (AdiabaticNoslipWallBoundary_adiabatic_wall_state_for_diffusion
      state_minus)
    (some state_minus.temperature)
  let grad_cv_plus := AdiabaticNoslipWallBoundary_grad_cv_bc
    species_mass_fraction_gradient state_minus grad_cv_minus normal
  let grad_t_plus :=
    AdiabaticNoslipWallBoundary_grad_temperature_bc grad_t_minus normal
  flux_dot_normal (viscous_flux state_plus grad_cv_plus grad_t_plus) normal

/-- C4: for the viscous wall boundaries (`IsothermalWallBoundary` and
`AdiabaticNoslipWallBoundary`), the state used by the inviscid flux has
momentum exactly `−m⁻`, the state used inside `viscous_wall_flux` has
exactly zero momentum, and the viscous boundary flux equals the physical
viscous flux of that zero-velocity state and the boundary gradients,
dotted with the outward normal — for EVERY caller-supplied numerical
viscous flux combinator, which is therefore bypassed. -/
theorem viscous_wall_dual_state_spec {d ns : ℕ}
    (mfs : MakeFluidStateFn d ns) (eos : EOS d ns)
    (vf : ViscousFluxFn d ns) (nvf nvf2 : ViscousNumFluxFn d ns)
    (inf : InviscidNumFluxFn d ns) (wall_temperature : ℚ)
    (smfg : ConservedVars d ns → GradCV d ns → Fin ns → Fin d → ℚ)
    (s : FluidState d ns) (g : GradCV d ns) (gt normal : Fin d → ℚ) :
    ((IsothermalWallBoundary_inviscid_wall_cv s).momentum
        = (fun i => -s.cv.momentum i)
      ∧ IsothermalWallBoundary_inviscid_wall_flux mfs inf s normal
        = inf s (mfs (IsothermalWallBoundary_inviscid_wall_cv s)
            (some s.temperature)) normal
      ∧ (IsothermalWallBoundary_isothermal_wall_state eos wall_temperature
          s).momentum = (fun _ => 0)
      ∧ IsothermalWallBoundary_viscous_wall_flux mfs eos vf nvf
          wall_temperature smfg s g gt normal
        = IsothermalWallBoundary_viscous_wall_flux mfs eos vf nvf2
          wall_temperature smfg s g gt normal
      ∧ IsothermalWallBoundary_viscous_wall_flux mfs eos vf nvf
          wall_temperature smfg s g gt normal
        = flux_dot_normal
            (vf (mfs (IsothermalWallBoundary_isothermal_wall_state eos
                  wall_temperature s) (some s.temperature))
              (IsothermalWallBoundary_grad_cv_bc smfg s g normal) gt)
            normal)
    ∧ ((AdiabaticNoslipWallBoundary_adiabatic_wall_state_for_advection
          s).momentum = (fun i => -s.cv.momentum i)
      ∧ AdiabaticNoslipWallBoundary_inviscid_wall_flux mfs inf s normal
        = inf s
            (mfs (AdiabaticNoslipWallBoundary_adiabatic_wall_state_for_advection
                s) (some s.temperature)) normal
      ∧ (AdiabaticNoslipWallBoundary_adiabatic_wall_state_for_diffusion
          s).momentum = (fun _ => 0)
      ∧ AdiabaticNoslipWallBoundary_viscous_wall_flux mfs vf nvf smfg s g
          gt normal
        = AdiabaticNoslipWallBoundary_viscous_wall_flux mfs vf nvf2 smfg
          s g gt normal
      ∧ AdiabaticNoslipWallBoundary_viscous_wall_flux mfs vf nvf smfg s g
          gt normal
        = flux_dot_normal
            (vf (mfs (AdiabaticNoslipWallBoundary_adiabatic_wall_state_for_diffusion
                  s) (some s.temperature))
              (AdiabaticNoslipWallBoundary_grad_cv_bc smfg s g normal)
              (AdiabaticNoslipWallBoundary_grad_temperature_bc gt normal))
            normal) := by
  refine ⟨⟨rfl, rfl, ?_, rfl, rfl⟩, ⟨rfl, rfl, ?_, rfl, rfl⟩⟩
  · funext i
    show s.cv.mass * 0 * s.velocity i = 0
    ring
  · funext i
    show 0 * s.cv.momentum i = 0
    ring

/-- Whether an `Except` result is a success. -/
def exceptIsOk {ε α : Type} : Except ε α → Bool
  | .ok _ => true
  | .error _ => false

/-- Configuration stored by a successfully constructed
`FarfieldBoundary`. -/
structure FarfieldConfig where
  temperature : ℚ
  pressure : ℚ
  species_mass_fractions : Option (List ℚ)
  velocity : List ℚ

/-- `FarfieldBoundary.__init__` (boundary.py lines 688-712): a `None`
velocity defaults to `np.zeros(numdim)`; a velocity of the wrong length,
and (when `numspecies > 0`) absent or wrongly sized free-stream mass
fractions, raise `ValueError` (modelled as `Except.error`). -/
def FarfieldBoundary_init (numdim numspecies : ℕ)
    (free_stream_temperature free_stream_pressure : ℚ)
    (free_stream_velocity : Option (List ℚ))
    (free_stream_mass_fractions : Option (List ℚ)) :
    Except String FarfieldConfig :=
  let v := free_stream_velocity.getD (List.replicate numdim 0)
  if v.length ≠ numdim then
    .error "Free-stream velocity must be of ambient dimension."
  else if 0 < numspecies then
    match free_stream_mass_fractions with
    | none => .error "Free-stream species mixture fractions must be given."
    | some y =>
      if y.length ≠ numspecies then
        .error "Free-stream species mixture fractions of improper size."
      else
        .ok ⟨free_stream_temperature, free_stream_pressure, some y, v⟩
  else
    .ok ⟨free_stream_temperature, free_stream_pressure,
          free_stream_mass_fractions, v⟩

/-- `AdiabaticNoslipMovingBoundary.__init__` (boundary.py lines 592-604):
a `None` wall velocity defaults to `np.zeros(dim)`; a wall velocity whose
length differs from `dim` raises `ValueError`. -/
def AdiabaticNoslipMovingBoundary_init (dim : ℕ)
    (wall_velocity : Option (List ℚ)) : Except String (List ℚ) :=
  let wv := wall_velocity.getD (List.replicate dim 0)
  if wv.length ≠ dim then
    .error "Specified wall velocity must be a dim-vector."
  else
    .ok wv

/-- C6: configuration-shape errors are raised at construction time:
`FarfieldBoundary` construction fails for every supplied free-stream
velocity of length ≠ `numdim` — for EVERY species count `anyspecies`,
zero included — and, when `numspecies > 0`, for absent or wrongly sized
free-stream mass fractions (whatever the velocity argument);
`AdiabaticNoslipMovingBoundary` construction fails for every wall
velocity of length ≠ `dim`. -/
theorem construction_shape_errors (numdim numspecies anyspecies dim : ℕ)
    (t p : ℚ) (v y wv : List ℚ) (yo vo : Option (List ℚ))
    (hv : v.length ≠ numdim) (hns : 0 < numspecies)
    (hy : y.length ≠ numspecies) (hwv : wv.length ≠ dim) :
    exceptIsOk (FarfieldBoundary_init numdim anyspecies t p (some v) yo)
      = false
    ∧ exceptIsOk (FarfieldBoundary_init numdim numspecies t p vo none)
      = false
    ∧ exceptIsOk (FarfieldBoundary_init numdim numspecies t p vo (some y))
      = false
    ∧ exceptIsOk (AdiabaticNoslipMovingBoundary_init dim (some wv))
      = false := by
  refine ⟨?_, ?_, ?_, ?_⟩
  · unfold FarfieldBoundary_init
    simp only [Option.getD_some, if_pos hv]
    rfl
  · unfold FarfieldBoundary_init
    by_cases hl : (vo.getD (List.replicate numdim 0)).length ≠ numdim
    · simp only [if_pos hl]
      rfl
    · simp only [if_neg hl, if_pos hns]
      rfl
  · unfold FarfieldBoundary_init
    by_cases hl : (vo.getD (List.replicate numdim 0)).length ≠ numdim
    · simp only [if_pos hl]
      rfl
    · simp only [if_neg hl, if_pos hns, if_pos hy]
      rfl
  · unfold AdiabaticNoslipMovingBoundary_init
    simp only [Option.getD_some, if_pos hwv]
    rfl

/-- Witness for C6 at concrete inputs: `numdim = 2`, `dim = 2`, a
velocity of length 1 rejected at species count 0, absent and empty mass
fractions rejected at species count 1, a wall velocity of length 3. -/
theorem construction_shape_errors_witness :
    exceptIsOk (FarfieldBoundary_init 2 0 300 101325 (some [1]) none)
      = false
    ∧ exceptIsOk (FarfieldBoundary_init 2 1 300 101325 none none) = false
    ∧ exceptIsOk (FarfieldBoundary_init 2 1 300 101325 none (some []))
      = false
    ∧ exceptIsOk (AdiabaticNoslipMovingBoundary_init 2 (some [1, 2, 3]))
      = false := by
  exact construction_shape_errors 2 1 0 2 300 101325 [1] [] [1, 2, 3]
    none none (by norm_num) (by norm_num) (by norm_num) (by norm_num)

/-- A minus/plus trace pair of a single field quantity
(`grudge.trace_pair.TracePair`). -/
structure TracePair (α : Type) where
  int : α
  ext : α

/-- The `tseed_interior_pairs` computation of `euler_operator` (euler.py
lines 164-175): `None` unless `state.is_mixture > 0`, in which case the
interior trace pairs of the temperature field are formed. -/
def euler_tseed_interior_pairs (state_is_mixture : Bool)
    (temperature_interior_pairs : List (TracePair ℚ)) :
    Option (List (TracePair ℚ)) :=
  if state_is_mixture then some temperature_interior_pairs else none

/-- Modelled from the spec:
`mirgecom.gas_model.make_fluid_state_trace_pairs` (the gas-model module
is not part of the verified sources). Builds the interior-interface
fluid state pairs from the cv pairs via the external `make_fluid_state`
factory `mfs`; the temperature pairs, when present, supply the
temperature seed on each side (spec §4.3 step 2: the temperature pair is
"used to seed dependent-variable recomputation on the plus side without
re-solving the full nonlinear temperature equation"); with no
temperature pairs the seed argument is `None`. -/
def make_fluid_state_trace_pairs {d ns : ℕ} (mfs : MakeFluidStateFn d ns)
    (cv_pairs : List (TracePair (ConservedVars d ns)))
    (tseed_pairs : Option (List (TracePair ℚ))) :
    List (TracePair (FluidState d ns)) :=
  match tseed_pairs with
  | none => cv_pairs.map (fun p => ⟨mfs p.int none, mfs p.ext none⟩)
  | some ts => (cv_pairs.zip ts).map
      (fun q => ⟨mfs q.1.int (some q.2.int), mfs q.1.ext (some q.2.ext)⟩)

/-- The `interior_states` computation of `euler_operator` (euler.py lines
164-179): the fluid state pairs built from the cv pairs and the optional
temperature-seed pairs. -/
def euler_operator_interior_states {d ns : ℕ}
    (mfs : MakeFluidStateFn d ns) (state_is_mixture : Bool)
    (cv_interior_pairs : List (TracePair (ConservedVars d ns)))
    (temperature_interior_pairs : List (TracePair ℚ)) :
    List (TracePair (FluidState d ns)) :=
  make_fluid_state_trace_pairs mfs cv_interior_pairs
    (euler_tseed_interior_pairs state_is_mixture
      temperature_interior_pairs)

/-- C8: in `euler_operator`, interior trace pairs of the temperature
field are formed if and only if the input fluid state is a mixture
(`(euler_tseed_interior_pairs b tp).isSome = b` for every `b`), and they
are used only as seeds for the dependent-variable reconstruction of the
interior-interface fluid state pairs: for a non-mixture state every
state is built with seed `None`, while for a mixture each side is built
with the corresponding temperature-pair value as its seed. -/
theorem euler_temperature_seed_iff_mixture {d ns : ℕ}
    (mfs : MakeFluidStateFn d ns) (b : Bool)
    (cvp : List (TracePair (ConservedVars d ns)))
    (tp : List (TracePair ℚ)) :
    (euler_tseed_interior_pairs b tp).isSome = b
    ∧ euler_operator_interior_states mfs false cvp tp
      = cvp.map (fun p => ⟨mfs p.int none, mfs p.ext none⟩)
    ∧ euler_operator_interior_states mfs true cvp tp
      = (cvp.zip tp).map
          (fun q => ⟨mfs q.1.int (some q.2.int),
                      mfs q.1.ext (some q.2.ext)⟩) := by
  refine ⟨?_, rfl, rfl⟩
  cases b <;> rfl

/-- `PrescribedFluidBoundary._identical_state` (boundary.py lines
358-359): the default exterior-state strategy, returning the interior
state itself. -/
def PrescribedFluidBoundary_identical_state {d ns : ℕ}
    (state_minus : FluidState d ns) : FluidState d ns :=
  state_minus

/-- Componentwise application of a scalar binary combinator to two cv
containers (the arraycontext broadcasting of
`grad_num_flux_func(cv_pair.int, cv_pair.ext)`). -/
def cvMap2 {d ns : ℕ} (f : ℚ → ℚ → ℚ) (a b : ConservedVars d ns) :
    ConservedVars d ns :=
  ⟨f a.mass b.mass, f a.energy b.energy,
   fun i => f (a.momentum i) (b.momentum i),
   fun i => f (a.species_mass i) (b.species_mass i)⟩

/-- `arraycontext.outer(cv, nhat)`: one flux vector per conserved
component. -/
def cv_outer {d ns : ℕ} (c : ConservedVars d ns) (nhat : Fin d → ℚ) :
    GradCV d ns :=
  ⟨fun j => c.mass * nhat j, fun j => c.energy * nhat j,
   fun i j => c.momentum i * nhat j,
   fun i j => c.species_mass i * nhat j⟩

/-- The optional sub-strategy functions accepted by
`PrescribedFluidBoundary.__init__` (boundary.py lines 258-279), in the
source's parameter order. Each strategy is given the signature of the
data it actually consumes in the per-node model (discretization handle,
boundary tag and gas model are implicit). -/
structure PrescribedOpts (d ns : ℕ) where
  inviscid_flux_func :
    Option (InviscidNumFluxFn d ns → FluidState d ns → (Fin d → ℚ) →
      ConservedVars d ns)
  boundary_state_func : Option (FluidState d ns → FluidState d ns)
  temperature_gradient_flux_func :
    Option (FluidState d ns → (Fin d → ℚ) → Fin d → ℚ)
  boundary_temperature_func : Option (FluidState d ns → ℚ)
  cv_gradient_flux_func :
    Option (FluidState d ns → (Fin d → ℚ) → GradCV d ns)
  gradient_numerical_flux_func : Option (ℚ → ℚ → ℚ)
  viscous_flux_func :
    Option (ViscousNumFluxFn d ns → FluidState d ns → GradCV d ns →
      (Fin d → ℚ) → ConservedVars d ns)
  boundary_gradient_cv_func :
    Option (FluidState d ns → GradCV d ns → (Fin d → ℚ) → GradCV d ns)
  boundary_gradient_temperature_func :
    Option (FluidState d ns → GradCV d ns → (Fin d → ℚ) → Fin d → ℚ)
  boundary_grad_av_func : Option (GradCV d ns → GradCV d ns)

/-- The fully resolved strategy record after
`PrescribedFluidBoundary.__init__` has substituted defaults. -/
structure ResolvedBoundary (d ns : ℕ) where
  bnd_state_func : FluidState d ns → FluidState d ns
  temperature_grad_flux_func : FluidState d ns → (Fin d → ℚ) → Fin d → ℚ
  inviscid_flux_func :
    InviscidNumFluxFn d ns → FluidState d ns → (Fin d → ℚ) →
      ConservedVars d ns
  bnd_temperature_func : FluidState d ns → ℚ
  grad_num_flux_func : ℚ → ℚ → ℚ
  cv_gradient_flux_func : FluidState d ns → (Fin d → ℚ) → GradCV d ns
  viscous_flux_func :
    ViscousNumFluxFn d ns → FluidState d ns → GradCV d ns →
      (Fin d → ℚ) → ConservedVars d ns
  bnd_grad_cv_func : FluidState d ns → GradCV d ns → (Fin d → ℚ) →
    GradCV d ns
  bnd_grad_temperature_func : FluidState d ns → GradCV d ns →
    (Fin d → ℚ) → Fin d → ℚ
  bnd_grad_av_func : GradCV d ns → GradCV d ns

/-- `PrescribedFluidBoundary.__init__` (boundary.py lines 280-322):
resolves every unsupplied sub-strategy to its documented default, and
records in the second component whether the
"Using dummy boundary: copies interior solution." warning was emitted —
the source warns exactly when neither `inviscid_flux_func` nor
`boundary_state_func` is supplied (line 296). The warning is advisory:
all four flux operations read only the first (strategy-record)
component, so it cannot alter numerical output. -/
def PrescribedFluidBoundary_init {d ns : ℕ} (opts : PrescribedOpts d ns) :
    ResolvedBoundary d ns × Bool :=
  let warned := opts.inviscid_flux_func.isNone
    && opts.boundary_state_func.isNone
  let bnd_state_func :=
    opts.boundary_state_func.getD PrescribedFluidBoundary_identical_state
  let inviscid_flux_func := opts.inviscid_flux_func.getD
    (fun numerical_flux_func state_minus normal =>
      numerical_flux_func state_minus (bnd_state_func state_minus) normal)
  let bnd_temperature_func := opts.boundary_temperature_func.getD
    (fun state_minus => (bnd_state_func state_minus).temperature)
  let grad_num_flux_func :=
    opts.gradient_numerical_flux_func.getD num_flux_central
  let cv_gradient_flux_func := opts.cv_gradient_flux_func.getD
    (fun state_minus nhat =>
      cv_outer (cvMap2 grad_num_flux_func state_minus.cv
        (bnd_state_func state_minus).cv) nhat)
  let temperature_grad_flux_func :=
    opts.temperature_gradient_flux_func.getD
      (fun state_minus nhat => fun j =>
        grad_num_flux_func state_minus.temperature
          (bnd_temperature_func state_minus) * nhat j)
  let bnd_grad_cv_func := opts.boundary_gradient_cv_func.getD
    (fun _ grad_cv_minus _ => grad_cv_minus)
  let bnd_grad_temperature_func :=
    opts.boundary_gradient_temperature_func.getD
      (fun _ _ grad_t_minus => grad_t_minus)
  let viscous_flux_func := opts.viscous_flux_func.getD
    (fun numerical_flux_func state_minus grad_cv_minus grad_t_minus =>
      numerical_flux_func (state_minus, bnd_state_func state_minus)
        (grad_cv_minus,
          bnd_grad_cv_func state_minus grad_cv_minus grad_t_minus)
        (grad_t_minus,
          bnd_grad_temperature_func state_minus grad_cv_minus
            grad_t_minus))
  let bnd_grad_av_func := opts.boundary_grad_av_func.getD
    (fun grad_av_minus => grad_av_minus)
  (⟨bnd_state_func, temperature_grad_flux_func, inviscid_flux_func,
    bnd_temperature_func, grad_num_flux_func, cv_gradient_flux_func,
    viscous_flux_func, bnd_grad_cv_func, bnd_grad_temperature_func,
    bnd_grad_av_func⟩, warned)

/-- Counterexample to C5 as stated: a `PrescribedFluidBoundary`
constructed with an `inviscid_flux_func` override but WITHOUT an
exterior-state sub-strategy still resolves the exterior state to the
identity, yet emits NO warning — the source warns only when both
`inviscid_flux_func` and `boundary_state_func` are absent. -/
theorem prescribed_boundary_warning_counterexample :
    let opts : PrescribedOpts 1 0 :=
      ⟨some (fun numerical_flux_func state_minus normal =>
          numerical_flux_func state_minus state_minus normal),
        none, none, none, none, none, none, none, none, none⟩
    let s : FluidState 1 0 :=
      ⟨⟨1, 2, fun _ => 3, Fin.elim0⟩, 1, 1, 1, fun _ => 3,
        Fin.elim0, false⟩
    opts.boundary_state_func = none
    ∧ (PrescribedFluidBoundary_init opts).2 = false
    ∧ (PrescribedFluidBoundary_init opts).1.bnd_state_func s = s := by
  intro opts s
  exact ⟨rfl, rfl, rfl⟩

/-- C5 (amended): whenever a `PrescribedFluidBoundary` is constructed
without an exterior-state sub-strategy, the exterior-state function
defaults to the identity (the exterior state is the interior state
itself), and the non-fatal dummy-boundary warning is emitted exactly
when, in addition, no inviscid-flux override is supplied; the warning
flag is separate from the resolved strategies and does not alter
numerical output. -/
theorem prescribed_boundary_default_identity {d ns : ℕ}
    (opts : PrescribedOpts d ns) (s : FluidState d ns)
    (hbs : opts.boundary_state_func = none) :
    (PrescribedFluidBoundary_init opts).1.bnd_state_func s = s
    ∧ (PrescribedFluidBoundary_init opts).2
      = opts.inviscid_flux_func.isNone := by
  constructor
  · show (opts.boundary_state_func.getD
      PrescribedFluidBoundary_identical_state) s = s
    rw [hbs]
    rfl
  · show (opts.inviscid_flux_func.isNone
      && opts.boundary_state_func.isNone) = opts.inviscid_flux_func.isNone
    rw [hbs]
    simp

/-- Witness for C5 (amended) at a concrete input: all ten sub-strategies
absent; the resolved exterior state of a concrete interior state is that
state, and the warning is emitted. -/
theorem prescribed_boundary_default_identity_witness :
    let opts : PrescribedOpts 1 0 :=
      ⟨none, none, none, none, none, none, none, none, none, none⟩
    let s : FluidState 1 0 :=
      ⟨⟨1, 2, fun _ => 3, Fin.elim0⟩, 1, 1, 1, fun _ => 3,
        Fin.elim0, false⟩
    (PrescribedFluidBoundary_init opts).1.bnd_state_func s = s
    ∧ (PrescribedFluidBoundary_init opts).2 = true := by
  intro opts s
  have h := prescribed_boundary_default_identity opts s rfl
  exact ⟨h.1, h.2⟩
